import Mathlib

/-!
Shallow embedding of the JWT-lifecycle and hash-chained-audit-trail core of
the MedAI_Flow_DevSecOps backend (`backend/app/audit/__init__.py`,
`backend/app/auth.py`, `backend/app/security/jwt_manager.py`,
`backend/app/config.py`), together with theorems settling the claims about
those components.

Machine integers are modelled as `Nat`/`Int` with explicit reduction
modulo 2^32 where the algorithms require it.  The third-party `jose` JWT
codec is modelled as an ideal MAC codec (a signature is the pair of the
signing secret and the signed payload, and verification is equality of that
pair); everything signed with the right secret and not yet expired decodes,
everything else fails.  Redis is modelled as a key/TTL store threaded
explicitly through the functions that use it.
-/

namespace MedAI

/-! ## SHA-256 over byte lists

Bytes are `Nat` values below 256; words are `Nat` values below 2^32, with
`w32` performing the reduction modulo 2^32 that the machine arithmetic of
`hashlib.sha256` performs implicitly. -/

/-- Reduce a natural number to a 32-bit word. -/
def w32 (n : Nat) : Nat := n % 4294967296

/-- Rotate a 32-bit word right by `n` bits. -/
def rotr32 (x n : Nat) : Nat := w32 ((x >>> n) ||| (x <<< (32 - n)))

/-- Big sigma-0 of the SHA-256 compression function. -/
def bSig0 (x : Nat) : Nat := rotr32 x 2 ^^^ rotr32 x 13 ^^^ rotr32 x 22

/-- Big sigma-1 of the SHA-256 compression function. -/
def bSig1 (x : Nat) : Nat := rotr32 x 6 ^^^ rotr32 x 11 ^^^ rotr32 x 25

/-- Small sigma-0 of the SHA-256 message schedule. -/
def sSig0 (x : Nat) : Nat := rotr32 x 7 ^^^ rotr32 x 18 ^^^ (x >>> 3)

/-- Small sigma-1 of the SHA-256 message schedule. -/
def sSig1 (x : Nat) : Nat := rotr32 x 17 ^^^ rotr32 x 19 ^^^ (x >>> 10)

/-- The SHA-256 choice function (`not x` is xor with the all-ones word). -/
def chFn (x y z : Nat) : Nat := (x &&& y) ^^^ ((x ^^^ 0xffffffff) &&& z)

/-- The SHA-256 majority function. -/
def majFn (x y z : Nat) : Nat := (x &&& y) ^^^ (x &&& z) ^^^ (y &&& z)

/-- The 64 SHA-256 round constants of FIPS 180-4, in decimal. -/
def sha256K : List Nat :=
  [1116352408, 1899447441, 3049323471, 3921009573,
   961987163, 1508970993, 2453635748, 2870763221,
   3624381080, 310598401, 607225278, 1426881987,
   1925078388, 2162078206, 2614888103, 3248222580,
   3835390401, 4022224774, 264347078, 604807628,
   770255983, 1249150122, 1555081692, 1996064986,
   2554220882, 2821834349, 2952996808, 3210313671,
   3336571891, 3584528711, 113926993, 338241895,
   666307205, 773529912, 1294757372, 1396182291,
   1695183700, 1986661051, 2177026350, 2456956037,
   2730485921, 2820302411, 3259730800, 3345764771,
   3516065817, 3600352804, 4094571909, 275423344,
   430227734, 506948616, 659060556, 883997877,
   958139571, 1322822218, 1537002063, 1747873779,
   1955562222, 2024104815, 2227730452, 2361852424,
   2428436474, 2756734187, 3204031479, 3329325298]

/-- The SHA-256 initial hash state of FIPS 180-4, in decimal. -/
def sha256InitH : List Nat :=
  [1779033703, 3144134277, 1013904242, 2773480762,
   1359893119, 2600822924, 528734635, 1541459225]

/-- Big-endian 8-byte encoding of a length-in-bits value. -/
def lenBytes64 (n : Nat) : List Nat :=
  [n >>> 56 % 256, n >>> 48 % 256, n >>> 40 % 256, n >>> 32 % 256,
   n >>> 24 % 256, n >>> 16 % 256, n >>> 8 % 256, n % 256]

/-- SHA-256 padding: append `0x80`, zeros to 56 mod 64, then the bit length. -/
def sha256Pad (msg : List Nat) : List Nat :=
  let len := msg.length
  let padZeros := (119 - len % 64) % 64
  msg ++ [0x80] ++ List.replicate padZeros 0 ++ lenBytes64 (8 * len)

/-- Split a byte list into successive 64-byte blocks, with a structural fuel
argument (the list length bounds the number of blocks). -/
def toBlocksFuel : Nat → List Nat → List (List Nat)
  | 0, _ => []
  | _, [] => []
  | fuel + 1, a :: rest =>
      ((a :: rest).take 64) :: toBlocksFuel fuel ((a :: rest).drop 64)

/-- Split a byte list into successive 64-byte blocks. -/
def toBlocks (l : List Nat) : List (List Nat) := toBlocksFuel l.length l

/-- Read a byte list as big-endian 32-bit words. -/
def toWords : List Nat → List Nat
  | b0 :: b1 :: b2 :: b3 :: rest =>
      (((b0 * 256 + b1) * 256 + b2) * 256 + b3) :: toWords rest
  | _ => []

/-- Extend the 16-word message schedule by `fuel` further words. -/
def extendW (ws : List Nat) : Nat → List Nat
  | 0 => ws
  | fuel + 1 =>
      let n := ws.length
      let nw := w32 (sSig1 (ws.getD (n - 2) 0) + ws.getD (n - 7) 0 +
                     sSig0 (ws.getD (n - 15) 0) + ws.getD (n - 16) 0)
      extendW (ws ++ [nw]) fuel

/-- One SHA-256 compression round; the state is `[a,b,c,d,e,f,g,h]` and the
argument pairs a round constant with a schedule word. -/
def compressStep (st : List Nat) (kw : Nat × Nat) : List Nat :=
  match st with
  | [a, b, c, d, e, f, g, h] =>
      let t1 := w32 (h + bSig1 e + chFn e f g + kw.1 + kw.2)
      let t2 := w32 (bSig0 a + majFn a b c)
      [w32 (t1 + t2), a, b, c, w32 (d + t1), e, f, g]
  | _ => st

/-- Process one 64-byte block into the running hash state. -/
def processBlock (h : List Nat) (block : List Nat) : List Nat :=
  let ws := extendW (toWords block) 48
  let st := (sha256K.zip ws).foldl compressStep h
  (h.zip st).map fun p => w32 (p.1 + p.2)

/-- The eight 32-bit words of the SHA-256 digest of a byte list. -/
def sha256Words (msg : List Nat) : List Nat :=
  (toBlocks (sha256Pad msg)).foldl processBlock sha256InitH

/-- Lower-case hexadecimal digit for a value below 16. -/
def hexDigit (n : Nat) : Char :=
  if n < 10 then Char.ofNat (48 + n) else Char.ofNat (87 + n)

/-- Eight-digit lower-case hexadecimal rendering of a 32-bit word. -/
def toHex8 (n : Nat) : String :=
  String.mk ((List.range 8).map fun i => hexDigit (n / 16 ^ (7 - i) % 16))

/-- Hex digest of SHA-256, as `hashlib.sha256(...).hexdigest()` returns it. -/
def sha256Hex (msg : List Nat) : String :=
  String.join ((sha256Words msg).map toHex8)

/-- UTF-8 encoding of one character, as a list of bytes. -/
def utf8EncodeChar (c : Char) : List Nat :=
  let n := c.toNat
  if n < 128 then [n]
  else if n < 2048 then [192 + n / 64, 128 + n % 64]
  else if n < 65536 then [224 + n / 4096, 128 + n / 64 % 64, 128 + n % 64]
  else [240 + n / 262144, 128 + n / 4096 % 64, 128 + n / 64 % 64, 128 + n % 64]

/-- UTF-8 encoding of a string, as Python's `str.encode("utf-8")`. -/
def utf8Encode (s : String) : List Nat :=
  (s.data.map utf8EncodeChar).flatten

/-! ## Python `json.dumps` with `sort_keys=True`

`AuditEntry.__post_init__` hashes `json.dumps(entry_data, sort_keys=True,
default=str)`.  The values appearing in `entry_data` are strings, `None`, and
the string-keyed `details` mapping, so the JSON value type below has exactly
those constructors (`default=str` never fires for these).  `json.dumps` uses
`ensure_ascii=True` and the default separators `", "` and `": "`, and with
`sort_keys=True` it emits every object's keys in lexicographic order. -/

/-- Lower-case four-digit hexadecimal rendering, for `\uXXXX` escapes. -/
def hex4 (n : Nat) : String :=
  String.mk [hexDigit (n / 4096 % 16), hexDigit (n / 256 % 16),
             hexDigit (n / 16 % 16), hexDigit (n % 16)]

/-- Escape one character the way Python's `json.dumps` (with the default
`ensure_ascii=True`) escapes string contents. -/
def pyJsonEscapeChar (c : Char) : String :=
  let n := c.toNat
  if c = '"' then "\\\""
  else if c = '\\' then "\\\\"
  else if 32 ≤ n ∧ n ≤ 126 then String.singleton c
  else if c = '\n' then "\\n"
  else if c = '\t' then "\\t"
  else if c = '\r' then "\\r"
  else if n = 8 then "\\b"
  else if n = 12 then "\\f"
  else if n < 65536 then "\\u" ++ hex4 n
  else
    let m := n - 65536
    "\\u" ++ hex4 (55296 + m / 1024) ++ "\\u" ++ hex4 (56320 + m % 1024)

/-- Render a string as a JSON string literal, Python style. -/
def pyJsonQuote (s : String) : String :=
  "\"" ++ String.join (s.data.map pyJsonEscapeChar) ++ "\""

/-- Lexicographic comparison of character lists by code point, as Python
compares strings. -/
def charListLt : List Char → List Char → Bool
  | [], [] => false
  | [], _ :: _ => true
  | _ :: _, [] => false
  | a :: as, b :: bs =>
      if a.toNat < b.toNat then true
      else if b.toNat < a.toNat then false
      else charListLt as bs

/-- Python's string `<`, by code points. -/
def strLt (a b : String) : Bool := charListLt a.data b.data

/-- Insert a keyed pair into a key-sorted association list. -/
def insertByKey {α : Type} (x : String × α) :
    List (String × α) → List (String × α)
  | [] => [x]
  | y :: ys => if strLt x.1 y.1 then x :: y :: ys else y :: insertByKey x ys

/-- Sort an association list by key (insertion sort; Python's `sort_keys`). -/
def sortByKey {α : Type} : List (String × α) → List (String × α)
  | [] => []
  | x :: xs => insertByKey x (sortByKey xs)

/-- Check that a list of keys is strictly increasing in the sort order. -/
def keysSortedB : List String → Bool
  | [] => true
  | [_] => true
  | a :: b :: rest => strLt a b && keysSortedB (b :: rest)

/-- JSON values occurring in the audit-entry hash payload: strings, `null`
(for absent `user_id`/`previous_hash`), and the string-valued `details`
object. -/
inductive JVal : Type
  | str (s : String)
  | null
  | obj (kvs : List (String × String))
deriving DecidableEq

/-- Serialize a string-to-string object body with the given (already ordered)
key order, using Python's default separators. -/
def serStrObjRaw (kvs : List (String × String)) : String :=
  "\x7b" ++
    String.intercalate ", "
      (kvs.map fun kv => pyJsonQuote kv.1 ++ ": " ++ pyJsonQuote kv.2) ++
  "\x7d"

/-- Serialize one JSON value; nested objects are emitted key-sorted, as
`json.dumps(..., sort_keys=True)` does recursively. -/
def jvalSer : JVal → String
  | .str s => pyJsonQuote s
  | .null => "null"
  | .obj kvs => serStrObjRaw (sortByKey kvs)

/-- Serialize an object body with the given (already ordered) key order. -/
def serObjRaw (kvs : List (String × JVal)) : String :=
  "\x7b" ++
    String.intercalate ", "
      (kvs.map fun kv => pyJsonQuote kv.1 ++ ": " ++ jvalSer kv.2) ++
  "\x7d"

/-- Model of `json.dumps(d, sort_keys=True, default=str)` for the audit-entry
payload dictionary. -/
def jsonDumpsSorted (kvs : List (String × JVal)) : String :=
  serObjRaw (sortByKey kvs)

/-! ## AuditEntry and AuditTrail (`backend/app/audit/__init__.py`)

`AuditEntry` is a frozen dataclass; `entry_id` and `timestamp` are generated
at construction (`uuid4()` / `datetime.utcnow()`), which the embedding makes
explicit as oracle inputs supplied per `log_action` call.  The `details`
mapping is modelled as a string-keyed, string-valued association list. -/

/-- An audit-trail entry; mirrors the fields of the frozen dataclass
`AuditEntry`. -/
structure AuditEntry : Type where
  entry_id : String
  timestamp : String
  action : String
  resource_type : String
  resource_id : String
  user_id : Option String
  status : String
  details : List (String × String)
  previous_hash : Option String
  entry_hash : String
deriving DecidableEq

/-- Embed an optional string as the JSON value `json.dumps` serializes for
it (`None` becomes `null`). -/
def optJVal : Option String → JVal
  | none => .null
  | some s => .str s

/-- The `entry_data` dictionary built by `AuditEntry.__post_init__`, in the
source's insertion order. -/
def entryData (entry_id timestamp action resource_type resource_id : String)
    (user_id : Option String) (status : String)
    (details : List (String × String)) (previous_hash : Option String) :
    List (String × JVal) :=
  [("entry_id", .str entry_id),
   ("timestamp", .str timestamp),
   ("action", .str action),
   ("resource_type", .str resource_type),
   ("resource_id", .str resource_id),
   ("user_id", optJVal user_id),
   ("status", .str status),
   ("details", .obj details),
   ("previous_hash", optJVal previous_hash)]

/-- Construct an `AuditEntry` as the dataclass constructor plus
`__post_init__` do: compute `entry_hash` as the SHA-256 hex digest of the
canonical JSON serialization of `entry_data` and store it. -/
def mkAuditEntry (entry_id timestamp action resource_type resource_id : String)
    (user_id : Option String) (status : String)
    (details : List (String × String)) (previous_hash : Option String) :
    AuditEntry :=
  let hash_input := jsonDumpsSorted
    (entryData entry_id timestamp action resource_type resource_id
      user_id status details previous_hash)
  { entry_id, timestamp, action, resource_type, resource_id, user_id,
    status, details, previous_hash,
    entry_hash := sha256Hex (utf8Encode hash_input) }

/-- The mutable state of an `AuditTrail`: the entry list and the cached
`_last_hash`. -/
structure AuditTrail : Type where
  entries : List AuditEntry
  last_hash : Option String
deriving DecidableEq

/-- A fresh `AuditTrail()`. -/
def AuditTrail.fresh : AuditTrail := { entries := [], last_hash := none }

/-- Python exceptions raised by the embedded code. -/
inductive PyErr : Type
  | valueError
  | attributeError
  | typeError
deriving DecidableEq

deriving instance DecidableEq for Except

/-- Per-call oracle for the generated `entry_id` (`uuid4()`) and `timestamp`
(`datetime.utcnow().isoformat() + "Z"`). -/
structure EntryOracle : Type where
  entry_id : String
  timestamp : String
deriving DecidableEq

/-- One `log_action` call's caller-supplied arguments plus the generation
oracle for the entry it would create. -/
structure LogInput : Type where
  oracle : EntryOracle
  action : String
  resource_type : String
  resource_id : String
  user_id : Option String := none
  status : String := "SUCCESS"
  details : Option (List (String × String)) := none
deriving DecidableEq

/-- The `AuditTrail.log_action` method: reject empty `action`,
`resource_type`, or `resource_id` (`ValueError`) before any state change;
otherwise build the entry with `previous_hash := self._last_hash`, append it,
and update `_last_hash`.  Returns the post-call trail alongside the raised
exception or the returned entry. -/
def log_action (t : AuditTrail) (i : LogInput) :
    AuditTrail × Except PyErr AuditEntry :=
  if i.action = "" ∨ i.resource_type = "" ∨ i.resource_id = "" then
    (t, .error .valueError)
  else
    let entry := mkAuditEntry i.oracle.entry_id i.oracle.timestamp
      i.action i.resource_type i.resource_id i.user_id i.status
      (i.details.getD []) t.last_hash
    ({ entries := t.entries ++ [entry], last_hash := some entry.entry_hash },
     .ok entry)

/-- The pairwise loop of `verify_integrity`: compare each entry's
`previous_hash` with the preceding entry's `entry_hash`.  On a mismatch the
source calls `logger.error(f"Hash chain broken at entry {i}",
current_id=..., previous_id=...)`; `current_id`/`previous_id` are not valid
keyword arguments of `logging.Logger.error`, so that call raises
`TypeError` before the `return False` line is reached. -/
def pairsCheck : AuditEntry → List AuditEntry → Except PyErr Bool
  | _, [] => .ok true
  | prev, c :: rest =>
      if c.previous_hash = some prev.entry_hash then pairsCheck c rest
      else .error .typeError

/-- The `AuditTrail.verify_integrity` method: an empty trail verifies; a
first entry carrying a `previous_hash` returns `False` (that branch's
`logger.error` call is valid); an `i>0` link mismatch raises `TypeError`
through the invalid `logger.error` keyword arguments (see `pairsCheck`);
a fully linked chain returns `True`. -/
def verify_integrity (t : AuditTrail) : Except PyErr Bool :=
  match t.entries with
  | [] => .ok true
  | e0 :: rest =>
      if e0.previous_hash = none then pairsCheck e0 rest else .ok false

/-- Python list slicing `l[start:]` for an integer `start` (negative values
count from the end, clamped at zero). -/
def pySliceFrom {α : Type} (l : List α) (start : Int) : List α :=
  if start < 0 then l.drop (((l.length : Int) + start).toNat)
  else l.drop start.toNat

/-- The `AuditTrail.get_latest_entries` method:
`list(reversed(self.entries[-count:]))`. -/
def get_latest_entries (t : AuditTrail) (count : Nat) : List AuditEntry :=
  (pySliceFrom t.entries (-(count : Int))).reverse

/-- Run a sequence of `log_action` calls, requiring each to succeed (a
raised `ValueError` aborts the run). -/
def runLog (t : AuditTrail) : List LogInput → Option AuditTrail
  | [] => some t
  | i :: is =>
      match log_action t i with
      | (t', .ok _) => runLog t' is
      | (_, .error _) => none

/-! ## JWT claims payloads as Python dictionaries

Token payloads are string-keyed dictionaries whose values are strings or
integers (`sub`, `role`, `jti` are strings; `exp`, `iat` are integer Unix
timestamps).  Dictionaries are association lists; `dictUpdate` replaces
existing keys in place and appends new ones, as `dict.update` does. -/

/-- A JWT claim value: a string or an integer timestamp. -/
inductive ClaimVal : Type
  | str (s : String)
  | int (n : Int)
deriving DecidableEq

/-- A claims payload, as a string-keyed dictionary. -/
abbrev Payload := List (String × ClaimVal)

/-- Python truthiness of a claim value (empty string and zero are falsy). -/
def pyTruthy : ClaimVal → Bool
  | .str s => s ≠ ""
  | .int n => n ≠ 0

/-- Python truthiness of `d.get(k)`: `None` and falsy values are falsy. -/
def pyFalsyOpt : Option ClaimVal → Bool
  | none => true
  | some v => !pyTruthy v

/-- Python `str()` of a claim value. -/
def pyStr : ClaimVal → String
  | .str s => s
  | .int n => toString n

/-- Set one key of a dictionary: replace in place if present, else append
at the end (Python `d[k] = v` insertion-order semantics). -/
def dictSet (p : Payload) (k : String) (v : ClaimVal) : Payload :=
  match p with
  | [] => [(k, v)]
  | (k2, v2) :: rest =>
      if k2 = k then (k2, v) :: rest else (k2, v2) :: dictSet rest k v

/-- Python `dict.update`, applied pair by pair. -/
def dictUpdate (p : Payload) (kvs : Payload) : Payload :=
  kvs.foldl (fun acc kv => dictSet acc kv.1 kv.2) p

/-! ## The `jose` JWT codec, modelled as an ideal MAC

A token is its payload plus a signature; the signature of an honestly signed
token is the pair of the signing secret and the signed payload, and
verification checks that the token's signature equals that pair for the
verifying secret.  This idealizes HMAC-SHA256: verification succeeds exactly
for the payload actually signed under the same secret.  After signature
verification `jose` validates the `exp` claim, rejecting tokens whose
expiry lies strictly in the past (`exp < now`), and rejecting a
non-numeric `exp`. -/

/-- A signed token: payload plus ideal signature. -/
structure JoseToken : Type where
  payload : Payload
  sig : String × Payload
deriving DecidableEq

/-- Sign a payload with a secret (`jose.jwt.encode`). -/
def joseEncode (claims : Payload) (secret : String) : JoseToken :=
  { payload := claims, sig := (secret, claims) }

/-- Verify and decode a token (`jose.jwt.decode`): signature check first,
then `exp` validation. -/
def joseDecode (tok : JoseToken) (secret : String) (now : Int) :
    Except Unit Payload :=
  if tok.sig ≠ (secret, tok.payload) then .error ()
  else
    match tok.payload.lookup "exp" with
    | some (.int e) => if e < now then .error () else .ok tok.payload
    | some (.str _) => .error ()
    | none => .ok tok.payload

/-- A FastAPI `HTTPException`, reduced to status code and detail. -/
structure HTTPError : Type where
  status_code : Nat
  detail : String
deriving DecidableEq

/-! ## Settings (`backend/app/config.py`)

Only the fields the embedded code reads are carried.  `Settings` declares
`access_token_expire_minutes` (default 30) but **no** field named
`jwt_exp_minutes`; pydantic `BaseSettings` raises `AttributeError` on access
to an undeclared attribute, which `Settings.getattrJwtExpMinutes` records. -/

/-- A value of the `settings.users` dictionary: password hash, role, and the
optional `disabled` flag (absent for every default user). -/
structure UserInfo : Type where
  password : String
  role : String
  disabled : Option Bool := none
deriving DecidableEq

/-- The configuration fields of `Settings` used by the token code. -/
structure Settings : Type where
  jwt_secret_key : String
  jwt_algorithm : String := "HS256"
  access_token_expire_minutes : Int := 30
  users : List (String × UserInfo)
deriving DecidableEq

/-- Attribute access `settings.jwt_exp_minutes`: `config.py` defines no such
field, so pydantic raises `AttributeError` (the sibling implementation in
`jwt_manager.py` and `tests/unit/test_config.py` use the field that does
exist, `access_token_expire_minutes`). -/
def Settings.getattrJwtExpMinutes (_s : Settings) : Except PyErr Int :=
  .error .attributeError

/-! ## Redis as a key/TTL store

`r.set(key, "1", ex=ttl)` keeps only the key and its TTL here; the stored
value is the constant `"1"`.  `r.exists(key)` is key membership. -/

/-- The revocation store: redis keys with their TTL in seconds. -/
abbrev RevStore := List (String × Int)

/-- Redis `SET key "1" EX ttl`: overwrite in place or create the key. -/
def storeSet (st : RevStore) (key : String) (ttl : Int) : RevStore :=
  if (st.lookup key).isSome then
    st.map fun kv => if kv.1 = key then (kv.1, ttl) else kv
  else st ++ [(key, ttl)]

/-- Redis `EXISTS key`, as a boolean. -/
def storeExists (st : RevStore) (key : String) : Bool :=
  (st.lookup key).isSome

/-! ## `backend/app/auth.py` -/

namespace Auth

/-- Oracle for the values `create_access_token` generates: the current time
and the fresh `uuid4()` JTI. -/
structure IssueOracle : Type where
  now : Int
  jti : String
deriving DecidableEq

/-- The `create_access_token` function: copy the caller's claims, set `exp`
(now plus `expires_delta`, or, when `expires_delta` is absent or zero,
the nonexistent `settings.jwt_exp_minutes` — an `AttributeError`), set
`iat` and a fresh `jti`, and sign with the configured secret.
`expires_delta` is in seconds. -/
def create_access_token (s : Settings) (o : IssueOracle) (data : Payload)
    (expires_delta : Option Int) : Except PyErr JoseToken :=
  match (match expires_delta with
         | some d =>
             if d = 0 then (s.getattrJwtExpMinutes).map (· * 60) else .ok d
         | none => (s.getattrJwtExpMinutes).map (· * 60)) with
  | .error e => .error e
  | .ok dSec =>
      let to_encode := dictUpdate data
        [("exp", .int (o.now + dSec)), ("iat", .int o.now),
         ("jti", .str o.jti)]
      .ok (joseEncode to_encode s.jwt_secret_key)

/-- The `decode_token` function: decode via `jose`, mapping every
`JWTError` to HTTP 401 "Invalid or expired token". -/
def decode_token (s : Settings) (now : Int) (tok : JoseToken) :
    Except HTTPError Payload :=
  match joseDecode tok s.jwt_secret_key now with
  | .ok p => .ok p
  | .error _ => .error ⟨401, "Invalid or expired token"⟩

/-- A stand-in for the compact wire string of a token, used only as the
input of the legacy hash-fallback JTI; any injective rendering of the
token's contents serves. -/
def tokenWire (tok : JoseToken) : String :=
  let ser : ClaimVal → String
    | .str s => pyJsonQuote s
    | .int n => toString n
  let part (p : Payload) : String :=
    "\x7b" ++
      String.intercalate ", "
        (p.map fun kv => pyJsonQuote kv.1 ++ ": " ++ ser kv.2) ++
    "\x7d"
  part tok.payload ++ "." ++ tok.sig.1 ++ "." ++ part tok.sig.2

/-- The `_extract_jti` helper: the `jti` claim when truthy, else the SHA-256
hex digest of the token string (legacy fallback). -/
def _extract_jti (payload : Payload) (tok : JoseToken) : String :=
  match payload.lookup "jti" with
  | some v => if pyTruthy v then pyStr v else sha256Hex (utf8Encode (tokenWire tok))
  | none => sha256Hex (utf8Encode (tokenWire tok))

/-- The `_extract_exp` helper: the `exp` claim when numeric, else `None`. -/
def _extract_exp (payload : Payload) : Option Int :=
  match payload.lookup "exp" with
  | some (.int n) => some n
  | _ => none

/-- The `_revoke_token` helper: write `jwt:blacklist:{jti}` with TTL
`max(1, exp_ts - now)` when `exp_ts` is truthy; when `exp_ts` is `None` or
zero the TTL expression reads `settings.jwt_exp_minutes`, which raises
`AttributeError` before anything is written. -/
def _revoke_token (s : Settings) (now : Int) (st : RevStore) (jti : String)
    (exp_ts : Option Int) : Except PyErr RevStore :=
  let key := "jwt:blacklist:" ++ jti
  match (match exp_ts with
         | some e =>
             if e = 0 then (s.getattrJwtExpMinutes).map (· * 60)
             else .ok (e - now)
         | none => (s.getattrJwtExpMinutes).map (· * 60)) with
  | .error er => .error er
  | .ok raw => .ok (storeSet st key (max 1 raw))

/-- The `_is_token_revoked` helper: `EXISTS jwt:blacklist:{jti}`. -/
def _is_token_revoked (st : RevStore) (jti : String) : Bool :=
  storeExists st ("jwt:blacklist:" ++ jti)

/-- An exception escaping `revoke_token`: the `HTTPException` from
`decode_token` or the `AttributeError` from `_revoke_token`. -/
inductive Exc : Type
  | http (e : HTTPError)
  | py (e : PyErr)
deriving DecidableEq

/-- The `revoke_token` function: decode (raising on an invalid token
*before* touching the store), extract `jti` and `exp`, then mark revoked.
Returns the post-call store alongside the raised exception, if any. -/
def revoke_token (s : Settings) (now : Int) (st : RevStore)
    (tok : JoseToken) : RevStore × Except Exc Unit :=
  match decode_token s now tok with
  | .error e => (st, .error (.http e))
  | .ok payload =>
      let jti := _extract_jti payload tok
      let exp := _extract_exp payload
      match _revoke_token s now st jti exp with
      | .error er => (st, .error (.py er))
      | .ok st' => (st', .ok ())

/-- The pydantic `User` model returned by `get_current_user`. -/
structure User : Type where
  username : String
  role : String
  disabled : Option Bool
deriving DecidableEq

/-- Lookup `settings.users.get(username)` for a raw claim value: only a
string claim can match the string-keyed dictionary. -/
def usersGet (users : List (String × UserInfo)) :
    Option ClaimVal → Option UserInfo
  | some (.str u) => users.lookup u
  | _ => none

/-- The `get_current_user` dependency: decode, extract `jti`, reject revoked
tokens, reject falsy `sub`/`role`, reject unknown and disabled users, and
otherwise return `User(username, role, user_info.get("disabled"))`.  The
final pydantic field validation is modelled as `str()` of the claim value;
the theorems only instantiate it at string claims. -/
def get_current_user (s : Settings) (now : Int) (st : RevStore)
    (tok : JoseToken) : Except HTTPError User :=
  match decode_token s now tok with
  | .error e => .error e
  | .ok payload =>
      let jti := _extract_jti payload tok
      if _is_token_revoked st jti then .error ⟨401, "Token revoked"⟩
      else
        let username := payload.lookup "sub"
        let role := payload.lookup "role"
        if pyFalsyOpt username || pyFalsyOpt role then
          .error ⟨401, "Malformed token"⟩
        else
          match usersGet s.users username with
          | none => .error ⟨401, "User not found"⟩
          | some user_info =>
              if user_info.disabled.getD false then
                .error ⟨400, "Inactive user"⟩
              else
                .ok { username := pyStr ((username).getD (.str ""))
                      role := pyStr ((role).getD (.str ""))
                      disabled := user_info.disabled }

end Auth

/-! ## `backend/app/security/jwt_manager.py` -/

namespace JwtManager

/-- The module's revocation key namespace, `"jwt:blacklist"`. -/
def redisRevokeNamespace : String := "jwt:blacklist"

/-- The `_redis_key_for_jti` helper. -/
def _redis_key_for_jti (jti : String) : String :=
  redisRevokeNamespace ++ ":" ++ jti

/-- The module-level `is_token_revoked` function. -/
def is_token_revoked (st : RevStore) (jti : String) : Bool :=
  storeExists st (_redis_key_for_jti jti)

/-- The module-level `revoke_token` function: TTL `max(0, exp_ts - now)`
when `exp_ts` is present, else `max(0, access_token_expire_minutes * 60)`,
then `SET` with expiry `max(1, ttl)`.  Always succeeds. -/
def revoke_token (s : Settings) (now : Int) (st : RevStore) (jti : String)
    (exp_ts : Option Int) : RevStore :=
  let key := _redis_key_for_jti jti
  let ttl : Int :=
    match exp_ts with
    | some e => max 0 (e - now)
    | none => max 0 (s.access_token_expire_minutes * 60)
  storeSet st key (max 1 ttl)

end JwtManager

/-- A concrete `Settings` value with the defaults of `config.py` (the secret
is the generated `token_urlsafe` stand-in; the users dictionary carries the
three default users, whose `disabled` key is absent). -/
def defaultSettings : Settings :=
  { jwt_secret_key := "test-secret-key-0123456789abcdef"
    users :=
      [("admin", { password := "argon2-admin-hash", role := "admin" }),
       ("user", { password := "argon2-user-hash", role := "user" }),
       ("test", { password := "bcrypt-test-hash", role := "user" })] }

/-- The entry `log_action` constructs for a call on trail `t` (its
`previous_hash` is the trail's `_last_hash`). -/
def logEntry (t : AuditTrail) (i : LogInput) : AuditEntry :=
  mkAuditEntry i.oracle.entry_id i.oracle.timestamp i.action i.resource_type
    i.resource_id i.user_id i.status (i.details.getD []) t.last_hash

/-- The hash-chain link relation: the later entry's `previous_hash` is the
earlier entry's `entry_hash`. -/
def linkR (p c : AuditEntry) : Prop := c.previous_hash = some p.entry_hash

/-- The first entry of a chain (when any) has no `previous_hash`. -/
def headNoPrev : List AuditEntry → Prop
  | [] => True
  | e :: _ => e.previous_hash = none

/-- The reachable-state invariant of an `AuditTrail`: the chain is linked,
its first entry has no `previous_hash`, and `_last_hash` caches the last
entry's `entry_hash`. -/
def trailInv (t : AuditTrail) : Prop :=
  headNoPrev t.entries ∧ List.Chain' linkR t.entries ∧
    t.last_hash = t.entries.getLast?.map (fun e => e.entry_hash)

/-- A two-entry chain whose second entry's `previous_hash` was tampered
with (it no longer matches the first entry's `entry_hash`). -/
def tamperedTrail : AuditTrail :=
  { entries :=
      [{ entry_id := "a", timestamp := "t0", action := "LOGIN",
         resource_type := "USER", resource_id := "u1", user_id := none,
         status := "SUCCESS", details := [], previous_hash := none,
         entry_hash := "h0" },
       { entry_id := "b", timestamp := "t1", action := "LOGOUT",
         resource_type := "USER", resource_id := "u1", user_id := none,
         status := "SUCCESS", details := [], previous_hash := some "WRONG",
         entry_hash := "h1" }],
    last_hash := some "h1" }

/-- A one-entry chain whose first entry was tampered with to carry a
`previous_hash`. -/
def headTamperedTrail : AuditTrail :=
  { entries :=
      [{ entry_id := "c", timestamp := "t0", action := "LOGIN",
         resource_type := "USER", resource_id := "u2", user_id := none,
         status := "SUCCESS", details := [], previous_hash := some "X",
         entry_hash := "h2" }],
    last_hash := some "h2" }

/-- A concrete first `log_action` call. -/
def logInputA : LogInput :=
  { oracle := ⟨"id-1", "2024-01-01T00:00:00Z"⟩, action := "LOGIN",
    resource_type := "USER", resource_id := "u1", user_id := some "u1" }

/-- A concrete second `log_action` call. -/
def logInputB : LogInput :=
  { oracle := ⟨"id-2", "2024-01-01T00:00:01Z"⟩, action := "LOGOUT",
    resource_type := "USER", resource_id := "u1", user_id := some "u1" }

/-- A second `Settings` value whose signing secret differs from
`defaultSettings`'s. -/
def otherSettings : Settings :=
  { jwt_secret_key := "a-different-secret", users := [] }

/-- A valid admin claims payload (as produced at issuance). -/
def validPayload : Payload :=
  [("sub", .str "admin"), ("role", .str "admin"), ("jti", .str "jti-1"),
   ("exp", .int 1000)]

/-- A token honestly signed over `validPayload` with the default secret. -/
def validToken : JoseToken :=
  joseEncode validPayload defaultSettings.jwt_secret_key

/-- A claims payload whose `sub` claim is present but empty. -/
def emptySubPayload : Payload :=
  [("sub", .str ""), ("role", .str "user"), ("jti", .str "j1"),
   ("exp", .int 1000)]

/-- A token honestly signed over `emptySubPayload`. -/
def emptySubToken : JoseToken :=
  joseEncode emptySubPayload defaultSettings.jwt_secret_key

/-- A token whose signature was produced with a different secret. -/
def badSigToken : JoseToken :=
  { payload := validPayload, sig := ("wrong-secret", validPayload) }

/-- The token `create_access_token` issues in the C7 witness scenario. -/
def c7token : JoseToken :=
  joseEncode
    [("sub", .str "admin"), ("role", .str "admin"), ("exp", .int 900),
     ("iat", .int 0), ("jti", .str "jti-1")]
    defaultSettings.jwt_secret_key

/-! ## Theorems -/

/-- Sanity check of the SHA-256 embedding against the FIPS 180 test vector
for `"abc"`. -/
theorem sha256Hex_test_vector :
    sha256Hex (utf8Encode "abc") =
      "ba7816bf8f01cfea414140de5dae2223b00361a396177a9cb410ff61f20015ad" := by
  decide

/-- The pairwise loop of `verify_integrity` returns `True` (rather than
raising) exactly when the chain-link relation holds along the list. -/
theorem pairsCheck_iff (l : List AuditEntry) :
    ∀ p, pairsCheck p l = .ok true ↔ List.Chain' linkR (p :: l) := by
  induction l with
  | nil => intro p; simp [pairsCheck]
  | cons c rest ih =>
      intro p
      rw [List.chain'_cons]
      by_cases h : c.previous_hash = some p.entry_hash
      · simp [pairsCheck, h, ih c, linkR]
      · simp [pairsCheck, h, linkR]

/-- Characterization of `verify_integrity`: it returns `True` (rather than
`False` or a raised `TypeError`) exactly when the first entry has no
`previous_hash` and the chain-link relation holds along the whole list. -/
theorem verify_integrity_iff (t : AuditTrail) :
    verify_integrity t = .ok true ↔
      (headNoPrev t.entries ∧ List.Chain' linkR t.entries) := by
  rcases t with ⟨es, lh⟩
  cases es with
  | nil => simp [verify_integrity, headNoPrev]
  | cons e0 rest =>
      by_cases h : e0.previous_hash = none
      · simp [verify_integrity, headNoPrev, h, pairsCheck_iff]
      · simp [verify_integrity, headNoPrev, h]

/-- Shape of a successful `log_action` call. -/
theorem log_action_ok (t : AuditTrail) (i : LogInput)
    (h : ¬(i.action = "" ∨ i.resource_type = "" ∨ i.resource_id = "")) :
    log_action t i =
      ({ entries := t.entries ++ [logEntry t i],
         last_hash := some (logEntry t i).entry_hash },
       .ok (logEntry t i)) := by
  simp [log_action, h, logEntry]

/-- A successful `log_action` call preserves the trail invariant. -/
theorem trailInv_log_action (t : AuditTrail) (i : LogInput)
    (hInv : trailInv t) (t' : AuditTrail) (e : AuditEntry)
    (h : log_action t i = (t', .ok e)) : trailInv t' := by
  by_cases hc : i.action = "" ∨ i.resource_type = "" ∨ i.resource_id = ""
  · simp [log_action, hc] at h
  · rw [log_action_ok t i hc] at h
    injection h with h1 h2
    subst h1
    obtain ⟨hHead, hChain, hLast⟩ := hInv
    refine ⟨?_, ?_, ?_⟩
    · show headNoPrev (t.entries ++ [logEntry t i])
      cases hes : t.entries with
      | nil =>
          rw [hes] at hLast
          simp only [List.getLast?_nil, Option.map_none'] at hLast
          simp [headNoPrev, logEntry, mkAuditEntry, hLast]
      | cons a rest =>
          rw [hes] at hHead
          simpa [headNoPrev] using hHead
    · show List.Chain' linkR (t.entries ++ [logEntry t i])
      refine List.chain'_append.mpr ⟨hChain, List.chain'_singleton _, ?_⟩
      intro x hx y hy
      simp only [List.head?_cons, Option.mem_def, Option.some.injEq] at hy
      subst hy
      show (logEntry t i).previous_hash = some x.entry_hash
      rw [show (logEntry t i).previous_hash = t.last_hash from rfl, hLast]
      simp only [Option.mem_def] at hx
      rw [hx]
      rfl
    · show some (logEntry t i).entry_hash =
        ((t.entries ++ [logEntry t i]).getLast?).map (fun e => e.entry_hash)
      simp [List.getLast?_concat]

/-- Every trail reached by successful `log_action` calls from a trail
satisfying the invariant satisfies the invariant. -/
theorem runLog_inv : ∀ (is : List LogInput) (t t' : AuditTrail),
    trailInv t → runLog t is = some t' → trailInv t' := by
  intro is
  induction is with
  | nil =>
      intro t t' hInv h
      simp [runLog] at h
      exact h ▸ hInv
  | cons i rest ih =>
      intro t t' hInv h
      rcases hla : log_action t i with ⟨t1, r⟩
      cases r with
      | error er => rw [runLog, hla] at h; exact absurd h (by simp)
      | ok e =>
          rw [runLog, hla] at h
          exact ih t1 t' (trailInv_log_action t i hInv t1 e hla) h

/-- A fresh trail satisfies the invariant. -/
theorem trailInv_fresh : trailInv AuditTrail.fresh :=
  ⟨trivial, List.chain'_nil, rfl⟩

/-- Claim C1: after any sequence of successful `log_action` calls on a fresh
`AuditTrail`, the chain-integrity invariant holds — the first entry has no
`previous_hash`, each later entry's `previous_hash` equals its
predecessor's `entry_hash`, `verify_integrity` returns `True` (its raising
branch is unreachable on such chains) — and a further successful append
links its new entry to the last appended entry's `entry_hash` (`None` on
an empty chain). -/
theorem audit_chain_integrity_C1 (inputs : List LogInput) (t' : AuditTrail)
    (h : runLog AuditTrail.fresh inputs = some t') :
    verify_integrity t' = .ok true ∧
    (∀ e0 rest, t'.entries = e0 :: rest → e0.previous_hash = none) ∧
    (∀ i (hi : i + 1 < t'.entries.length),
      (t'.entries.get ⟨i + 1, hi⟩).previous_hash =
        some ((t'.entries.get ⟨i, by omega⟩).entry_hash)) ∧
    (∀ inp t2 e, log_action t' inp = (t2, .ok e) →
      e.previous_hash = t'.entries.getLast?.map (fun x => x.entry_hash)) := by
  have hInv := runLog_inv inputs AuditTrail.fresh t' trailInv_fresh h
  obtain ⟨hHead, hChain, hLast⟩ := hInv
  refine ⟨?_, ?_, ?_, ?_⟩
  · exact (verify_integrity_iff t').mpr ⟨hHead, hChain⟩
  · intro e0 rest he
    rw [he] at hHead
    exact hHead
  · intro i hi
    exact List.chain'_iff_get.mp hChain i (by omega)
  · intro inp t2 e hla
    by_cases hc : inp.action = "" ∨ inp.resource_type = "" ∨
        inp.resource_id = ""
    · simp [log_action, hc] at hla
    · rw [log_action_ok t' inp hc] at hla
      injection hla with h1 h2
      injection h2 with h2
      rw [← h2]
      rw [show (logEntry t' inp).previous_hash = t'.last_hash from rfl]
      exact hLast

/-- Witness for C1: a concrete two-call run succeeds and verifies. -/
theorem audit_chain_integrity_C1_witness :
    runLog AuditTrail.fresh [logInputA, logInputB] =
      some ((runLog AuditTrail.fresh [logInputA, logInputB]).getD
        AuditTrail.fresh) ∧
    verify_integrity ((runLog AuditTrail.fresh [logInputA, logInputB]).getD
      AuditTrail.fresh) = .ok true := by
  have h : runLog AuditTrail.fresh [logInputA, logInputB] =
      some ((runLog AuditTrail.fresh [logInputA, logInputB]).getD
        AuditTrail.fresh) := rfl
  exact ⟨h, (audit_chain_integrity_C1 [logInputA, logInputB] _ h).1⟩

/-- Claim C2, at the failing input: `verify_integrity` does return `True`
on the empty chain and `False` when the first entry carries a
`previous_hash`, but on an `i>0` link mismatch — here the tampered
two-entry chain, whose second entry's `previous_hash` differs from the
first entry's `entry_hash` — it raises `TypeError` (the mismatch branch's
`logger.error` call passes the invalid keyword arguments
`current_id`/`previous_id`) instead of returning `False`. -/
theorem verify_integrity_raises_C2 :
    verify_integrity { entries := [], last_hash := none } = .ok true ∧
    verify_integrity headTamperedTrail = .ok false ∧
    (tamperedTrail.entries.get ⟨1, by decide⟩).previous_hash ≠
      some ((tamperedTrail.entries.get ⟨0, by decide⟩).entry_hash) ∧
    verify_integrity tamperedTrail = .error .typeError := by
  decide

/-- Claim C6: `log_action` raises `ValueError` exactly when `action`,
`resource_type`, or `resource_id` is empty; on that error the trail is
unchanged, and on success the returned entry is the one appended, the
cached last hash becomes its `entry_hash`, and its `previous_hash` is the
pre-call last hash. -/
theorem log_action_C6 (t : AuditTrail) (i : LogInput) :
    ((log_action t i).2 = .error .valueError ↔
      (i.action = "" ∨ i.resource_type = "" ∨ i.resource_id = "")) ∧
    ((log_action t i).2 = .error .valueError → (log_action t i).1 = t) ∧
    (∀ e, (log_action t i).2 = .ok e →
      (log_action t i).1.entries = t.entries ++ [e] ∧
      (log_action t i).1.last_hash = some e.entry_hash ∧
      e.previous_hash = t.last_hash) := by
  by_cases hc : i.action = "" ∨ i.resource_type = "" ∨ i.resource_id = ""
  · refine ⟨by simp [log_action, hc], fun _ => by simp [log_action, hc],
      fun e he => ?_⟩
    simp [log_action, hc] at he
  · rw [log_action_ok t i hc]
    refine ⟨by simp [hc], by simp, fun e he => ?_⟩
    simp only [Except.ok.injEq] at he
    subst he
    exact ⟨rfl, rfl, rfl⟩

/-- Witness for C6: an empty `action` raises and leaves the fresh trail
unchanged. -/
theorem log_action_C6_witness :
    (log_action AuditTrail.fresh
      { oracle := ⟨"id", "ts"⟩, action := "", resource_type := "USER",
        resource_id := "u1" }).2 = .error .valueError ∧
    (log_action AuditTrail.fresh
      { oracle := ⟨"id", "ts"⟩, action := "", resource_type := "USER",
        resource_id := "u1" }).1 = AuditTrail.fresh := by
  have h := log_action_C6 AuditTrail.fresh
    { oracle := ⟨"id", "ts"⟩, action := "", resource_type := "USER",
      resource_id := "u1" }
  exact ⟨h.1.mpr (Or.inl rfl), h.2.1 (h.1.mpr (Or.inl rfl))⟩

/-- Claim C10: for `count ≥ 1`, `get_latest_entries` returns the last
`min(count, len)` entries newest-first (the first `count` of the reversed
list); for `count = 0` it returns all entries newest-first. -/
theorem get_latest_entries_C10 (t : AuditTrail) (count : Nat)
    (h : 1 ≤ count) :
    get_latest_entries t count = t.entries.reverse.take count ∧
    get_latest_entries t 0 = t.entries.reverse := by
  constructor
  · have hneg : (-(count : Int)) < 0 := by omega
    have harg : ((t.entries.length : Int) + -(count : Int)).toNat =
        t.entries.length - count := by omega
    rw [get_latest_entries, pySliceFrom, if_pos hneg, harg,
      show t.entries.drop (t.entries.length - count) =
        t.entries.rtake count from rfl,
      List.rtake_eq_reverse_take_reverse, List.reverse_reverse]
  · simp [get_latest_entries, pySliceFrom]

/-- Witness for C10: on the tampered two-entry trail, three requested
entries yield both entries newest-first, and zero requested entries yield
everything newest-first. -/
theorem get_latest_entries_C10_witness :
    get_latest_entries tamperedTrail 3 =
      tamperedTrail.entries.reverse.take 3 ∧
    get_latest_entries tamperedTrail 0 = tamperedTrail.entries.reverse :=
  get_latest_entries_C10 tamperedTrail 3 (by decide)

/-- Claim C3: for every field assignment, the constructed entry's
`entry_hash` is the SHA-256 hex digest of the canonical JSON serialization
of exactly the nine fields other than `entry_hash` itself —
`previous_hash` included — listed here explicitly in lexicographic key
order; the key order is indeed sorted; and construction from identical
inputs is deterministic (two constructions from the same inputs yield the
same hash).  No operation of the embedding mutates an existing entry. -/
theorem auditEntry_hash_C3
    (entry_id timestamp action resource_type resource_id : String)
    (user_id : Option String) (status : String)
    (details : List (String × String)) (previous_hash : Option String) :
    (mkAuditEntry entry_id timestamp action resource_type resource_id
        user_id status details previous_hash).entry_hash =
      sha256Hex (utf8Encode (serObjRaw
        [("action", .str action), ("details", .obj details),
         ("entry_id", .str entry_id),
         ("previous_hash", optJVal previous_hash),
         ("resource_id", .str resource_id),
         ("resource_type", .str resource_type),
         ("status", .str status), ("timestamp", .str timestamp),
         ("user_id", optJVal user_id)])) ∧
    keysSortedB
      ["action", "details", "entry_id", "previous_hash", "resource_id",
       "resource_type", "status", "timestamp", "user_id"] = true ∧
    (mkAuditEntry entry_id timestamp action resource_type resource_id
        user_id status details previous_hash).entry_hash =
      (mkAuditEntry entry_id timestamp action resource_type resource_id
        user_id status details previous_hash).entry_hash := by
  have hsort : sortByKey (entryData entry_id timestamp action resource_type
      resource_id user_id status details previous_hash) =
      [("action", .str action), ("details", .obj details),
       ("entry_id", .str entry_id),
       ("previous_hash", optJVal previous_hash),
       ("resource_id", .str resource_id),
       ("resource_type", .str resource_type),
       ("status", .str status), ("timestamp", .str timestamp),
       ("user_id", optJVal user_id)] := rfl
  refine ⟨?_, by decide, rfl⟩
  simp only [mkAuditEntry, jsonDumpsSorted]
  rw [hsort]

/-- Looking up the key just set returns the new value. -/
theorem dictSet_lookup_self (p : Payload) (k : String) (v : ClaimVal) :
    (dictSet p k v).lookup k = some v := by
  induction p with
  | nil => simp [dictSet, List.lookup]
  | cons a rest ih =>
      rcases a with ⟨k2, v2⟩
      by_cases h : k2 = k
      · simp [dictSet, h, List.lookup]
      · have hbeq : (k == k2) = false := by
          simp [beq_iff_eq]
          exact fun he => h he.symm
        simp [dictSet, h, List.lookup, hbeq, ih]

/-- Setting one key leaves lookups of other keys unchanged. -/
theorem dictSet_lookup_ne (p : Payload) (k : String) (v : ClaimVal)
    (k2 : String) (h : k2 ≠ k) :
    (dictSet p k v).lookup k2 = p.lookup k2 := by
  induction p with
  | nil =>
      have hbeq : (k2 == k) = false := by simp [beq_iff_eq, h]
      simp [dictSet, List.lookup, hbeq]
  | cons a rest ih =>
      rcases a with ⟨k3, v3⟩
      by_cases h3 : k3 = k
      · subst h3
        have hbeq : (k2 == k3) = false := by simp [beq_iff_eq, h]
        simp [dictSet, List.lookup, hbeq]
      · simp [dictSet, h3, List.lookup, ih]

/-- The `exp` claim of the payload built at issuance is the computed
expiry, whatever the caller-supplied claims were. -/
theorem dictUpdate_claims_exp (data : Payload) (e i : Int) (j : String) :
    (dictUpdate data
      [("exp", .int e), ("iat", .int i), ("jti", .str j)]).lookup "exp" =
      some (.int e) := by
  show (dictSet (dictSet (dictSet data "exp" (.int e)) "iat" (.int i))
      "jti" (.str j)).lookup "exp" = some (.int e)
  rw [dictSet_lookup_ne _ _ _ _ (by decide),
    dictSet_lookup_ne _ _ _ _ (by decide), dictSet_lookup_self]

/-- Decoding an honestly signed, unexpired token with the signing secret
returns its payload. -/
theorem decode_token_encode (s : Settings) (P : Payload) (now e : Int)
    (hexp : P.lookup "exp" = some (.int e)) (hle : ¬(e < now)) :
    Auth.decode_token s now (joseEncode P s.jwt_secret_key) = .ok P := by
  unfold Auth.decode_token joseDecode joseEncode
  simp [hexp, hle]

/-- Decoding a token with a secret other than its signing secret fails. -/
theorem decode_token_wrong_secret (s2 : Settings) (P : Payload) (now : Int)
    (key : String) (h : s2.jwt_secret_key ≠ key) :
    Auth.decode_token s2 now (joseEncode P key) =
      .error ⟨401, "Invalid or expired token"⟩ := by
  unfold Auth.decode_token joseDecode joseEncode
  have hne : ((key, P) : String × Payload) ≠ (s2.jwt_secret_key, P) := by
    simp [Prod.ext_iff]
    exact fun he => h he.symm
  simp [hne]

/-- Claim C7: decoding a token issued over claims `data` with the issuing
secret, at any time up to its expiry, returns exactly the caller's claims
together with the computed `exp`, `iat`, and `jti`; decoding it with any
other secret always fails with the invalid-token error. -/
theorem token_roundtrip_C7 (s : Settings) (o : Auth.IssueOracle)
    (data : Payload) (d : Int) (tok : JoseToken) (hd : d ≠ 0)
    (henc : Auth.create_access_token s o data (some d) = .ok tok) :
    (∀ tDec : Int, tDec ≤ o.now + d →
      Auth.decode_token s tDec tok = .ok (dictUpdate data
        [("exp", .int (o.now + d)), ("iat", .int o.now),
         ("jti", .str o.jti)])) ∧
    (∀ (s2 : Settings) (tDec : Int),
      s2.jwt_secret_key ≠ s.jwt_secret_key →
      Auth.decode_token s2 tDec tok =
        .error ⟨401, "Invalid or expired token"⟩) := by
  have htok : tok = joseEncode (dictUpdate data
      [("exp", .int (o.now + d)), ("iat", .int o.now),
       ("jti", .str o.jti)]) s.jwt_secret_key := by
    unfold Auth.create_access_token at henc
    simp [hd] at henc
    exact henc.symm
  subst htok
  constructor
  · intro tDec hle
    exact decode_token_encode s _ tDec (o.now + d)
      (dictUpdate_claims_exp data _ _ _) (by omega)
  · intro s2 tDec hne
    exact decode_token_wrong_secret s2 _ tDec _ hne

/-- Witness for C7: a concrete issuance round-trips with the right secret
and fails with a different one. -/
theorem token_roundtrip_C7_witness :
    Auth.create_access_token defaultSettings ⟨0, "jti-1"⟩
      [("sub", .str "admin"), ("role", .str "admin")] (some 900) =
        .ok c7token ∧
    Auth.decode_token defaultSettings 100 c7token =
      .ok [("sub", .str "admin"), ("role", .str "admin"),
           ("exp", .int 900), ("iat", .int 0), ("jti", .str "jti-1")] ∧
    Auth.decode_token otherSettings 100 c7token =
      .error ⟨401, "Invalid or expired token"⟩ := by
  have henc : Auth.create_access_token defaultSettings ⟨0, "jti-1"⟩
      [("sub", .str "admin"), ("role", .str "admin")] (some 900) =
        .ok c7token := by decide
  have h := token_roundtrip_C7 defaultSettings ⟨0, "jti-1"⟩
    [("sub", .str "admin"), ("role", .str "admin")] 900 c7token
    (by decide) henc
  refine ⟨henc, ?_, h.2 otherSettings 100 (by decide)⟩
  exact (h.1 100 (by decide)).trans (by decide)

/-- Claim C5 (amended): `get_current_user` fails in this order and only for
these reasons — invalid token from the decoder; revoked JTI; absent *or
falsy-empty* `sub`/`role` claim; unknown user; disabled user — and
otherwise returns the `User` carrying exactly the token's subject and
role. -/
theorem get_current_user_C5 (s : Settings) (now : Int) (st : RevStore)
    (tok : JoseToken) :
    (∀ e, Auth.decode_token s now tok = .error e →
      Auth.get_current_user s now st tok = .error e) ∧
    (∀ p, Auth.decode_token s now tok = .ok p →
      Auth._is_token_revoked st (Auth._extract_jti p tok) = true →
      Auth.get_current_user s now st tok = .error ⟨401, "Token revoked"⟩) ∧
    (∀ p, Auth.decode_token s now tok = .ok p →
      Auth._is_token_revoked st (Auth._extract_jti p tok) = false →
      (pyFalsyOpt (p.lookup "sub") || pyFalsyOpt (p.lookup "role")) = true →
      Auth.get_current_user s now st tok = .error ⟨401, "Malformed token"⟩) ∧
    (∀ p u r, Auth.decode_token s now tok = .ok p →
      Auth._is_token_revoked st (Auth._extract_jti p tok) = false →
      p.lookup "sub" = some (.str u) → u ≠ "" →
      p.lookup "role" = some (.str r) → r ≠ "" →
      s.users.lookup u = none →
      Auth.get_current_user s now st tok = .error ⟨401, "User not found"⟩) ∧
    (∀ p u r info, Auth.decode_token s now tok = .ok p →
      Auth._is_token_revoked st (Auth._extract_jti p tok) = false →
      p.lookup "sub" = some (.str u) → u ≠ "" →
      p.lookup "role" = some (.str r) → r ≠ "" →
      s.users.lookup u = some info → info.disabled.getD false = true →
      Auth.get_current_user s now st tok = .error ⟨400, "Inactive user"⟩) ∧
    (∀ p u r info, Auth.decode_token s now tok = .ok p →
      Auth._is_token_revoked st (Auth._extract_jti p tok) = false →
      p.lookup "sub" = some (.str u) → u ≠ "" →
      p.lookup "role" = some (.str r) → r ≠ "" →
      s.users.lookup u = some info → info.disabled.getD false = false →
      Auth.get_current_user s now st tok =
        .ok { username := u, role := r, disabled := info.disabled }) := by
  refine ⟨?_, ?_, ?_, ?_, ?_, ?_⟩
  · intro e hdec
    unfold Auth.get_current_user
    rw [hdec]
  · intro p hdec hrev
    unfold Auth.get_current_user
    rw [hdec]
    simp [hrev]
  · intro p hdec hrev hfal
    unfold Auth.get_current_user
    rw [hdec]
    simp [hrev, hfal]
  · intro p u r hdec hrev hsub hu hrole hr husers
    unfold Auth.get_current_user
    rw [hdec]
    simp [hrev, hsub, hrole, pyFalsyOpt, pyTruthy, hu, hr, Auth.usersGet,
      husers]
  · intro p u r info hdec hrev hsub hu hrole hr husers hdis
    unfold Auth.get_current_user
    rw [hdec]
    simp [hrev, hsub, hrole, pyFalsyOpt, pyTruthy, hu, hr, Auth.usersGet,
      husers, hdis]
  · intro p u r info hdec hrev hsub hu hrole hr husers hdis
    unfold Auth.get_current_user
    rw [hdec]
    simp [hrev, hsub, hrole, pyFalsyOpt, pyTruthy, hu, hr, Auth.usersGet,
      husers, hdis, pyStr]

/-- Counterexample to C5 as stated: a valid, unrevoked token whose `sub`
claim is present (the empty string) and unknown to the user registry is
rejected as "Malformed token", not with the unknown-principal error the
claim's ordering prescribes. -/
theorem get_current_user_C5_counterexample :
    Auth.decode_token defaultSettings 0 emptySubToken =
      .ok emptySubPayload ∧
    Auth._is_token_revoked []
      (Auth._extract_jti emptySubPayload emptySubToken) = false ∧
    emptySubPayload.lookup "sub" = some (.str "") ∧
    emptySubPayload.lookup "role" = some (.str "user") ∧
    Auth.usersGet defaultSettings.users (emptySubPayload.lookup "sub") =
      none ∧
    Auth.get_current_user defaultSettings 0 [] emptySubToken =
      .error ⟨401, "Malformed token"⟩ ∧
    Auth.get_current_user defaultSettings 0 [] emptySubToken ≠
      .error ⟨401, "User not found"⟩ := by
  decide

/-- Witness for C5: a valid, unrevoked admin token authenticates to the
admin `User`. -/
theorem get_current_user_C5_witness :
    Auth.get_current_user defaultSettings 0 [] validToken =
      .ok { username := "admin", role := "admin", disabled := none } := by
  exact (get_current_user_C5 defaultSettings 0 [] validToken).2.2.2.2.2
    validPayload "admin" "admin"
    { password := "argon2-admin-hash", role := "admin" }
    (by decide) (by decide) (by decide) (by decide) (by decide) (by decide)
    (by decide) (by decide)

/-- Claim C8: revoking a token that fails to decode raises the decoder's
error and writes nothing to the revocation store. -/
theorem revoke_invalid_token_C8 (s : Settings) (now : Int) (st : RevStore)
    (tok : JoseToken) (e : HTTPError)
    (h : Auth.decode_token s now tok = .error e) :
    Auth.revoke_token s now st tok = (st, .error (.http e)) := by
  unfold Auth.revoke_token
  rw [h]

/-- Witness for C8: revoking a token signed with the wrong secret raises
HTTP 401 and leaves the store exactly as it was. -/
theorem revoke_invalid_token_C8_witness :
    Auth.revoke_token defaultSettings 0 [("jwt:blacklist:x", 5)]
      badSigToken =
      ([("jwt:blacklist:x", 5)],
       .error (.http ⟨401, "Invalid or expired token"⟩)) :=
  revoke_invalid_token_C8 defaultSettings 0 [("jwt:blacklist:x", 5)]
    badSigToken ⟨401, "Invalid or expired token"⟩ (by decide)

/-- Claim C4, at the failing input: with `exp_ts = None`, `auth.py`'s
`_revoke_token` raises `AttributeError` (there is no
`settings.jwt_exp_minutes`) instead of storing the marker with the default
token lifetime; with a truthy `exp_ts` it does store
`max(1, exp_ts - now)`; and `jwt_manager.py`'s `revoke_token` handles the
`None` case with the configured `access_token_expire_minutes`. -/
theorem revoke_token_missing_setting_C4 :
    Auth._revoke_token defaultSettings 1000 [] "abc" none =
      .error .attributeError ∧
    Auth._revoke_token defaultSettings 1000 [] "abc" (some 1600) =
      .ok [("jwt:blacklist:abc", 600)] ∧
    JwtManager.revoke_token defaultSettings 1000 [] "abc" none =
      [("jwt:blacklist:abc", 1800)] := by
  decide

/-- Counterexample to C9 as stated: at `exp_ts = 0` the two revocation
implementations do not equally succeed — `auth.py`'s raises
`AttributeError` while `jwt_manager.py`'s succeeds with a one-second
TTL. -/
theorem revocation_equiv_C9_counterexample :
    Auth._revoke_token defaultSettings 500 [] "t1" (some 0) =
      .error .attributeError ∧
    JwtManager.revoke_token defaultSettings 500 [] "t1" (some 0) =
      [("jwt:blacklist:t1", 1)] := by
  decide

/-- Claim C9 (amended): for every truthy (non-`None`, nonzero) `exp_ts`
the two revocation implementations write the same `jwt:blacklist:{jti}`
key with the same effective TTL `max(1, exp_ts - now)` and equally
succeed, and the two revocation-check functions agree on every store
state. -/
theorem revocation_equiv_C9 (s : Settings) (now : Int) (st : RevStore)
    (jti : String) (e : Int) (he : e ≠ 0) :
    Auth._revoke_token s now st jti (some e) =
      .ok (JwtManager.revoke_token s now st jti (some e)) ∧
    (∀ (st2 : RevStore) (j : String),
      Auth._is_token_revoked st2 j = JwtManager.is_token_revoked st2 j) := by
  constructor
  · unfold Auth._revoke_token JwtManager.revoke_token
      JwtManager._redis_key_for_jti JwtManager.redisRevokeNamespace
    simp only [he, if_false, reduceIte]
    have hkey : ("jwt:blacklist:" : String) ++ jti =
        ("jwt:blacklist" : String) ++ ":" ++ jti := rfl
    have httl : max (1 : Int) (e - now) = max 1 (max 0 (e - now)) := by
      omega
    rw [hkey, httl]
  · intro st2 j
    rfl

/-- Witness for C9: a concrete truthy expiry on which both implementations
produce the identical store. -/
theorem revocation_equiv_C9_witness :
    Auth._revoke_token defaultSettings 100 [] "jti-1" (some 160) =
      .ok (JwtManager.revoke_token defaultSettings 100 [] "jti-1"
        (some 160)) :=
  (revocation_equiv_C9 defaultSettings 100 [] "jti-1" 160 (by decide)).1

end MedAI
